import Mathlib

/-!
Shallow embedding of the imv image-decoding backends
(backend_libjxl.c, backend_libnsgif.c, backend_libpng.c).

The external codec libraries (libjxl, libnsgif, libpng) are out of scope
and are modelled at their interface boundary: each operation receives an
environment value describing how the library behaves on the given input
(signature-check verdicts, decoder event traces, per-frame decode
results).  The adapter logic of the backends themselves is translated
directly from the C source.
-/

/-- Result taxonomy of the two open operations (enum backend_result). -/
inductive BackendResult
  | success
  | unsupported
  | badPath
  deriving DecidableEq

/-- Normalized pixel format; every backend emits IMV_ABGR. -/
inductive PixelFormat
  | abgr
  deriving DecidableEq

/-- struct imv_bitmap: plain pixel buffer handed to the caller. -/
structure ImvBitmap where
  width : Nat
  height : Nat
  format : PixelFormat
  data : List Nat
  deriving DecidableEq

/-- struct imv_image: wrapper over exactly one bitmap. -/
structure ImvImage where
  bitmap : ImvBitmap
  deriving DecidableEq

/-- imv_image_create_from_bitmap. -/
def imv_image_create_from_bitmap (b : ImvBitmap) : ImvImage := ⟨b⟩

/-- Result of one load_first_frame / load_next_frame call: either a
    normal return assigning both out-parameters, or undefined behaviour
    (a memcpy whose source buffer was never allocated, or an access past
    the allocated frame array). -/
inductive LoadOutcome
  | ret (img : Option ImvImage) (frametime : Int)
  | ub
  deriving DecidableEq

/-- Teardown effects of a release (free) call.  freeInput would free the
    input byte buffer on the heap; no backend ever emits it. -/
inductive TeardownAction
  | unmapInput
  | freeInput
  | destroyCodecHandle
  | closeFile
  | freeFrameBuffer (i : Nat)
  | freeFrameList
  | freeStruct
  deriving DecidableEq

namespace Jxl

/-- JxlAnimationHeader fields used by the adapter: ticks-per-second. -/
structure AnimationInfo where
  tps_numerator : Nat
  tps_denominator : Nat
  deriving DecidableEq

/-- JxlBasicInfo fields used by the adapter. -/
structure BasicInfo where
  xsize : Nat
  ysize : Nat
  have_animation : Bool
  animation : AnimationInfo
  deriving DecidableEq

/-- struct jxl_frame: one pre-decoded frame slot.  data = none models a
    NULL pointer in a calloc-ed slot whose buffer was never allocated. -/
structure Frame where
  data : Option (List Nat)
  frametime : Int
  deriving DecidableEq

/-- struct private of backend_libjxl.c.  The allocated capacity
    nb_allocd_frames is frames.length. -/
structure Private where
  data : List Nat
  owns_data : Bool
  width : Nat
  height : Nat
  is_animation : Bool
  frames : List Frame
  cur_frame : Nat
  nb_frames : Nat
  deriving DecidableEq

def BACKEND_NB_CHANNELS : Nat := 4

def BACKEND_DEFAULT_FRAMETIME : Int := 100

def BACKEND_NB_ALLOC_FRAMES : Nat := 64

/-- push_frame: copy the current pre-decoded frame into a fresh bitmap.
    Reading a slot whose buffer was never allocated (NULL data, or an
    index past the allocated array) makes the memcpy undefined
    behaviour; otherwise exactly width*height*4 bytes are copied. -/
def push_frame (pvt : Private) : LoadOutcome :=
  let sz := pvt.width * pvt.height * BACKEND_NB_CHANNELS
  let slot := pvt.frames.getD pvt.cur_frame ⟨none, 0⟩
  match slot.data with
  | none => .ub
  | some buf =>
      if sz ≤ buf.length then
        .ret (some (imv_image_create_from_bitmap
          ⟨pvt.width, pvt.height, .abgr, buf.take sz⟩)) slot.frametime
      else .ub

/-- One JxlDecoderProcessInput status, bundled with the behaviour of the
    library calls made while handling it: getOk models
    JxlDecoderGetBasicInfo succeeding, sizeOk JxlDecoderImageOutBufferSize,
    setOk JxlDecoderSetImageOutBuffer, and pixels the contents the
    decoder leaves in the buffer allocated for this frame. -/
inductive Event
  | success
  | error
  | needMoreInput
  | basicInfo (getOk : Bool) (info : BasicInfo)
  | needImageOutBuffer (sizeOk : Bool) (bufSz : Nat) (setOk : Bool) (pixels : List Nat)
  | fullImage
  | unknown
  deriving DecidableEq

/-- Loop-local state of first_frame: the private struct plus the stack
    variable info (whose initial value models the uninitialized local
    declared before the loop). -/
structure Loop where
  pvt : Private
  info : BasicInfo
  deriving DecidableEq

/-- The switch body of first_frame's decode loop for one decoder status.
    Returns the updated state and: none to keep looping, some true when
    the loop ends in JXL_DEC_SUCCESS, some false when it ends in a
    failure (goto end with a null image). -/
def process (st : Loop) (ev : Event) : Loop × Option Bool :=
  match ev with
  | .success => (st, some true)
  | .error => (st, some false)
  | .needMoreInput => (st, some false)
  | .basicInfo getOk info =>
      if getOk then
        ({ st with
            info := info,
            pvt := { st.pvt with
              width := info.xsize,
              height := info.ysize,
              is_animation := info.have_animation } }, none)
      else (st, some false)
  | .needImageOutBuffer sizeOk _bufSz setOk pixels =>
      if sizeOk then
        let pvt := st.pvt
        let frames :=
          if pvt.nb_frames = pvt.frames.length then
            pvt.frames ++ List.replicate BACKEND_NB_ALLOC_FRAMES (⟨none, 0⟩ : Frame)
          else pvt.frames
        let ft : Int :=
          if pvt.is_animation then
            if st.info.animation.tps_numerator ≠ 0 ∧ st.info.animation.tps_denominator ≠ 0 then
              ((st.info.animation.tps_numerator / st.info.animation.tps_denominator : Nat) : Int)
            else BACKEND_DEFAULT_FRAMETIME
          else 0
        let frames := frames.set pvt.nb_frames ⟨some pixels, ft⟩
        ({ st with pvt := { pvt with frames := frames } },
         if setOk then none else some false)
      else (st, some false)
  | .fullImage =>
      ({ st with pvt := { st.pvt with nb_frames := st.pvt.nb_frames + 1 } }, none)
  | .unknown => (st, some false)

/-- The do/while decode loop: process statuses until a terminal one.
    A trace that ends without a terminal status is a decode failure (the
    real decoder always eventually reports a terminal status). -/
def loop : Loop → List Event → Loop × Bool
  | st, [] => (st, false)
  | st, ev :: rest =>
      match process st ev with
      | (st', none) => loop st' rest
      | (st', some ok) => (st', ok)

/-- Behaviour of the native decoder object across one first_frame call. -/
structure DecoderEnv where
  subscribe_ok : Bool
  set_input_ok : Bool
  events : List Event
  deriving DecidableEq

/-- first_frame (backend_libjxl.c): the one-time eager decode of every
    frame, then push of frame 0.  info0 models the initial contents of
    the uninitialized stack variable info. -/
def first_frame (env : DecoderEnv) (info0 : BasicInfo) (pvt : Private) :
    Private × LoadOutcome :=
  if !env.subscribe_ok then (pvt, .ret none 0)
  else if !env.set_input_ok then (pvt, .ret none 0)
  else
    let pvt := { pvt with
      nb_frames := 0,
      cur_frame := 0,
      frames := List.replicate BACKEND_NB_ALLOC_FRAMES (⟨none, 0⟩ : Frame) }
    match loop ⟨pvt, info0⟩ env.events with
    | (st, true) => (st.pvt, push_frame st.pvt)
    | (st, false) => (st.pvt, .ret none 0)

/-- next_frame (backend_libjxl.c): index advance over the pre-decoded
    list; the reset to 0 is an equality test against nb_frames - 1 over
    C ints, then an unconditional push of the selected slot. -/
def next_frame (pvt : Private) : Private × LoadOutcome :=
  let cur :=
    if (pvt.cur_frame : Int) = (pvt.nb_frames : Int) - 1 then 0
    else pvt.cur_frame + 1
  let pvt := { pvt with cur_frame := cur }
  (pvt, push_frame pvt)

/-- free_private (backend_libjxl.c): munmap the input only when this
    source owns the mapping; free each allocated frame buffer, the frame
    list when one was allocated, and the struct. -/
def free_private (pvt : Option Private) : List TeardownAction :=
  match pvt with
  | none => []
  | some pvt =>
      (if pvt.owns_data then [TeardownAction.unmapInput] else [])
      ++ (if pvt.frames.isEmpty then [] else
            ((List.range pvt.frames.length).filterMap fun i =>
              if (pvt.frames.getD i ⟨none, 0⟩).data.isSome then
                some (TeardownAction.freeFrameBuffer i)
              else none)
            ++ [TeardownAction.freeFrameList])
      ++ [TeardownAction.freeStruct]

/-- JxlSignatureCheck verdicts. -/
inductive Signature
  | notEnoughBytes
  | invalid
  | codestream
  | container
  deriving DecidableEq

/-- open_memory (backend_libjxl.c): sig is the library's signature-check
    verdict on the caller's buffer; NOT_ENOUGH_BYTES falls through to
    INVALID.  The borrowed buffer is stored but not owned. -/
def open_memory (sig : Signature) (data : List Nat) :
    BackendResult × Option Private :=
  match sig with
  | .notEnoughBytes => (.unsupported, none)
  | .invalid => (.unsupported, none)
  | _ => (.success, some ⟨data, false, 0, 0, false, [], 0, 0⟩)

/-- Filesystem and mapping behaviour for one open_path call:
    open_ok models open(path) returning a valid fd, lseek_len the
    SEEK_END offset (none when negative), mmap_ok the mapping, bytes the
    mapped file contents and sig the signature-check verdict on them. -/
structure PathEnv where
  open_ok : Bool
  lseek_len : Option Nat
  mmap_ok : Bool
  bytes : List Nat
  sig : Signature
  deriving DecidableEq

/-- open_path (backend_libjxl.c). -/
def open_path (env : PathEnv) : BackendResult × Option Private :=
  if !env.open_ok then (.badPath, none)
  else
    match env.lseek_len with
    | none => (.badPath, none)
    | some _ =>
        if !env.mmap_ok then (.badPath, none)
        else
          match env.sig with
          | .notEnoughBytes => (.unsupported, none)
          | .invalid => (.unsupported, none)
          | _ => (.success, some ⟨env.bytes, true, 0, 0, false, [], 0, 0⟩)

end Jxl

namespace Gif

/-- nsgif_info_t fields used by the adapter. -/
structure Info where
  frame_count : Nat
  width : Nat
  height : Nat

/-- An accepted nsgif decoder object at its interface boundary: static
    stream info, per-frame delay in centiseconds, and the deterministic
    per-frame decode result (none models a non-NSGIF_OK error).  The
    bitmap callbacks of backend_libnsgif.c create every frame buffer
    with calloc(width * height, 4), so a produced buffer holds exactly
    4*width*height bytes. -/
structure Handle where
  info : Info
  frame_delay : Nat → Nat
  frame_decode : Nat → Option (List Nat)

/-- struct private of the GIF backend.  data is the mapped input region
    in path mode; in memory mode the calloc-ed field stays NULL (none) -
    the caller-owned buffer is never stored. -/
structure Private where
  current_frame : Nat
  gif : Handle
  data : Option (List Nat)

/-- push_current_image: copy the decoder's frame buffer into a fresh
    bitmap of 4*width*height bytes; frametime is the frame delay in
    centiseconds times 10, in milliseconds. -/
def push_current_image (pvt : Private) (gif_frame_data : List Nat) :
    Option ImvImage × Int :=
  let w := pvt.gif.info.width
  let h := pvt.gif.info.height
  let len := 4 * w * h
  (some (imv_image_create_from_bitmap ⟨w, h, .abgr, gif_frame_data.take len⟩),
   ((pvt.gif.frame_delay pvt.current_frame * 10 : Nat) : Int))

/-- first_frame (GIF): reset the index to frame 0, decode it, push the
    decoded buffer on success, null image and zero frametime on error. -/
def first_frame (pvt : Private) : Private × (Option ImvImage × Int) :=
  let pvt := { pvt with current_frame := 0 }
  match pvt.gif.frame_decode pvt.current_frame with
  | none => (pvt, (none, 0))
  | some d => (pvt, push_current_image pvt d)

/-- next_frame (GIF): advance the index modulo the frame count
    discovered at open time, then decode that frame. -/
def next_frame (pvt : Private) : Private × (Option ImvImage × Int) :=
  let pvt := { pvt with
    current_frame := (pvt.current_frame + 1) % pvt.gif.info.frame_count }
  match pvt.gif.frame_decode pvt.current_frame with
  | none => (pvt, (none, 0))
  | some d => (pvt, push_current_image pvt d)

/-- free_private (GIF): destroy the decoder, unmap the mapping when one
    was made (in memory mode the data field is NULL, and munmap(NULL, 0)
    unmaps nothing), free the struct. -/
def free_private (pvt : Option Private) : List TeardownAction :=
  match pvt with
  | none => []
  | some pvt =>
      [TeardownAction.destroyCodecHandle]
      ++ (match pvt.data with
          | some _ => [TeardownAction.unmapInput]
          | none => [])
      ++ [TeardownAction.freeStruct]

/-- nsgif library behaviour for one open call: whether nsgif_create and
    nsgif_data_scan succeed on this input, and the resulting decoder
    state after nsgif_data_complete. -/
structure OpenEnv where
  create_ok : Bool
  scan_ok : Bool
  handle : Handle

/-- open_memory (GIF): create the decoder, scan the caller's buffer,
    declare the data complete; the buffer itself is never stored. -/
def open_memory (env : OpenEnv) : BackendResult × Option Private :=
  if !env.create_ok then (.unsupported, none)
  else if !env.scan_ok then (.unsupported, none)
  else (.success, some ⟨0, env.handle, none⟩)

/-- Filesystem and nsgif behaviour for one GIF open_path call. -/
structure PathEnv where
  open_ok : Bool
  lseek_len : Option Nat
  mmap_ok : Bool
  mapped : List Nat
  create_ok : Bool
  scan_ok : Bool
  handle : Handle

/-- open_path (GIF). -/
def open_path (env : PathEnv) : BackendResult × Option Private :=
  if !env.open_ok then (.badPath, none)
  else
    match env.lseek_len with
    | none => (.badPath, none)
    | some _ =>
        if !env.mmap_ok then (.badPath, none)
        else if !env.create_ok then (.unsupported, none)
        else if !env.scan_ok then (.unsupported, none)
        else (.success, some ⟨0, env.handle, some env.mapped⟩)

end Gif

namespace Png

/-- libpng behaviour for one accepted stream at its interface boundary:
    whether the setjmp-guarded png_read_info succeeds, the header info
    after the normalizing transform chain (width, height, rowbytes),
    whether the setjmp-guarded png_read_image succeeds, and the bytes it
    writes into the row buffers. -/
structure LibState where
  read_info_ok : Bool
  width : Nat
  height : Nat
  rowbytes : Nat
  read_image_ok : Bool
  pixels : List Nat
  deriving DecidableEq

/-- struct private of the PNG backend: an open FILE in path mode, or a
    borrowed view of the caller's buffer starting after the 8 signature
    bytes in memory mode.  png records whether the libpng read/info
    structs are still alive. -/
structure Private where
  file : Bool
  data : Option (List Nat)
  pos : Nat
  png : Bool
  lib : LibState
  deriving DecidableEq

/-- read_end: destroy the libpng read/info structs if alive and close
    the file if open. -/
def read_end (pvt : Private) : Private × List TeardownAction :=
  ({ pvt with png := false, file := false },
   (if pvt.png then [TeardownAction.destroyCodecHandle] else [])
   ++ (if pvt.file then [TeardownAction.closeFile] else []))

/-- free_private (PNG): read_end plus freeing the struct; the
    memory-mode data view is never freed. -/
def free_private (pvt : Option Private) : List TeardownAction :=
  match pvt with
  | none => []
  | some pvt => (read_end pvt).2 ++ [TeardownAction.freeStruct]

/-- load_image (PNG): one full-image row decode into a buffer of
    rowbytes*height bytes; a libpng error longjmps back and yields the
    null image with zero frametime; on success the libpng handles are
    destroyed immediately (read_end) while the Source stays alive.  The
    frametime is never set after the initial zero. -/
def load_image (pvt : Private) : Private × (Option ImvImage × Int) :=
  if !pvt.lib.read_image_ok then (pvt, (none, 0))
  else
    let w := pvt.lib.width
    let h := pvt.lib.height
    let stride := pvt.lib.rowbytes
    let raw := pvt.lib.pixels.take (stride * h)
    ((read_end pvt).1,
     (some (imv_image_create_from_bitmap ⟨w, h, .abgr, raw⟩), 0))

def SIG_SIZE : Nat := 8

/-- The eight PNG signature bytes. -/
def png_signature : List Nat := [137, 80, 78, 71, 13, 10, 26, 10]

/-- png_sig_cmp(sig, 0, 8) viewed as a Bool: true exactly when the first
    eight bytes do not match the PNG signature. -/
def png_sig_mismatch (data : List Nat) : Bool :=
  decide (data.take SIG_SIZE ≠ png_signature)

/-- Allocation behaviour of init_private (libpng object creation) plus
    the library behaviour for this stream. -/
structure OpenEnv where
  create_ok : Bool
  info_ok : Bool
  lib : LibState
  deriving DecidableEq

/-- Result of the 8-byte signature fread in open_path: all eight bytes,
    or a short read at end-of-file, or a short read with a read error. -/
inductive SigRead
  | ok (sig : List Nat)
  | eof
  | err
  deriving DecidableEq

/-- Filesystem behaviour for one PNG open_path call. -/
structure PathEnv where
  fopen_ok : Bool
  sig_read : SigRead
  deriving DecidableEq

/-- open_path (PNG): validate the 8-byte signature before building any
    decoder state; a short signature read at end-of-file is Unsupported,
    a short read with a stream error is BadPath, a mismatching signature
    is Unsupported, and any construction failure is Unsupported. -/
def open_path (env : PathEnv) (oenv : OpenEnv) : BackendResult × Option Private :=
  if !env.fopen_ok then (.badPath, none)
  else
    match env.sig_read with
    | .eof => (.unsupported, none)
    | .err => (.badPath, none)
    | .ok sig =>
        if png_sig_mismatch sig then (.unsupported, none)
        else if !oenv.create_ok then (.unsupported, none)
        else if !oenv.info_ok then (.unsupported, none)
        else if !oenv.lib.read_info_ok then (.unsupported, none)
        else (.success, some ⟨true, none, 0, true, oenv.lib⟩)

/-- open_memory (PNG): reject on signature mismatch, then keep a
    borrowed view of the caller's buffer that starts after the 8
    signature bytes. -/
def open_memory (data : List Nat) (oenv : OpenEnv) : BackendResult × Option Private :=
  if png_sig_mismatch data then (.unsupported, none)
  else if !oenv.create_ok then (.unsupported, none)
  else if !oenv.info_ok then (.unsupported, none)
  else if !oenv.lib.read_info_ok then (.unsupported, none)
  else (.success, some ⟨false, some (data.drop SIG_SIZE), 0, true, oenv.lib⟩)

end Png

/-! Sample concrete instances used by the witness theorems. -/

/-- A 3-frame 2x2 GIF decoder whose every frame decodes successfully
    with delay 10 centiseconds (100 ms). -/
def sampleGifHandle : Gif.Handle :=
  ⟨⟨3, 2, 2⟩, fun _ => 10, fun i => some (List.replicate 16 i)⟩

/-- A GIF private state in memory mode over sampleGifHandle. -/
def sampleGifPrivate : Gif.Private := ⟨0, sampleGifHandle, none⟩

/-- A libpng behaviour for a 2x1 normalized stream that decodes fine. -/
def samplePngLib : Png.LibState :=
  ⟨true, 2, 1, 8, true, List.replicate 8 7⟩

/-- A PNG private state in memory mode over samplePngLib. -/
def samplePngPrivate : Png.Private := ⟨false, some [], 0, true, samplePngLib⟩

/-- Claim C1: for every backend, open_from_memory on a byte buffer whose
    contents do not match that codec's signature (the nsgif data scan
    rejects it for GIF, the JXL signature check reports invalid or
    not-enough-bytes, the first eight bytes differ from the PNG
    signature) returns Unsupported - never Success and never BadPath. -/
theorem claim_C1_open_memory_rejects_non_matching
    (genv : Gif.OpenEnv) (hg : genv.scan_ok = false)
    (sig : Jxl.Signature) (jdata : List Nat)
    (hj : sig = Jxl.Signature.invalid ∨ sig = Jxl.Signature.notEnoughBytes)
    (pdata : List Nat) (oenv : Png.OpenEnv)
    (hp : pdata.take Png.SIG_SIZE ≠ Png.png_signature) :
    (Gif.open_memory genv).1 = BackendResult.unsupported ∧
    (Jxl.open_memory sig jdata).1 = BackendResult.unsupported ∧
    (Png.open_memory pdata oenv).1 = BackendResult.unsupported := by
  refine ⟨?_, ?_, ?_⟩
  · unfold Gif.open_memory
    cases hc : genv.create_ok <;> simp [hg]
  · rcases hj with h | h <;> simp [h, Jxl.open_memory]
  · unfold Png.open_memory
    simp [Png.png_sig_mismatch, hp]

/-- Witness for claim C1 at concrete inputs. -/
theorem claim_C1_open_memory_rejects_non_matching_witness :
    (Gif.open_memory ⟨true, false, sampleGifHandle⟩).1 = BackendResult.unsupported ∧
    (Jxl.open_memory Jxl.Signature.invalid [1, 2]).1 = BackendResult.unsupported ∧
    (Png.open_memory [1, 2, 3] ⟨true, true, samplePngLib⟩).1 = BackendResult.unsupported :=
  claim_C1_open_memory_rejects_non_matching ⟨true, false, sampleGifHandle⟩ rfl
    Jxl.Signature.invalid [1, 2] (Or.inl rfl) [1, 2, 3] ⟨true, true, samplePngLib⟩
    (by decide)

/-- Claim C2: for every backend, open_from_path at a path where no file
    can be opened (open/fopen fails) returns BadPath - never Success and
    never Unsupported. -/
theorem claim_C2_open_path_missing_file_bad_path
    (genv : Gif.PathEnv) (hg : genv.open_ok = false)
    (jenv : Jxl.PathEnv) (hj : jenv.open_ok = false)
    (penv : Png.PathEnv) (oenv : Png.OpenEnv) (hp : penv.fopen_ok = false) :
    (Gif.open_path genv).1 = BackendResult.badPath ∧
    (Jxl.open_path jenv).1 = BackendResult.badPath ∧
    (Png.open_path penv oenv).1 = BackendResult.badPath := by
  refine ⟨?_, ?_, ?_⟩
  · simp [Gif.open_path, hg]
  · simp [Jxl.open_path, hj]
  · simp [Png.open_path, hp]

/-- Witness for claim C2 at concrete inputs. -/
theorem claim_C2_open_path_missing_file_bad_path_witness :
    (Gif.open_path ⟨false, none, false, [], true, true, sampleGifHandle⟩).1
      = BackendResult.badPath ∧
    (Jxl.open_path ⟨false, none, false, [], Jxl.Signature.codestream⟩).1
      = BackendResult.badPath ∧
    (Png.open_path ⟨false, Png.SigRead.eof⟩ ⟨true, true, samplePngLib⟩).1
      = BackendResult.badPath :=
  claim_C2_open_path_missing_file_bad_path
    ⟨false, none, false, [], true, true, sampleGifHandle⟩ rfl
    ⟨false, none, false, [], Jxl.Signature.codestream⟩ rfl
    ⟨false, Png.SigRead.eof⟩ ⟨true, true, samplePngLib⟩ rfl

/-- Claim C10: every GIF load_first_frame call stores frame index 0
    before decoding, so the stored index is 0 afterwards whether or not
    the decode succeeded; the rest of the state is untouched. -/
theorem claim_C10_gif_first_frame_resets_index (pvt : Gif.Private) :
    (Gif.first_frame pvt).1 = { pvt with current_frame := 0 } := by
  unfold Gif.first_frame
  cases h : pvt.gif.frame_decode 0 <;> simp [h]

/-- Claim C3: on every opened Source, a load_first_frame or
    load_next_frame call whose underlying decode step fails returns a
    null image together with a frametime of exactly zero.  (Both out
    parameters are total outputs of every load function in this
    embedding, mirroring the unconditional initial assignments in the C
    code.)  For GIF this covers both load operations; PNG has only
    load_first_frame; for JPEG-XL the decode happens in
    load_first_frame, whose failure modes are a failed event
    subscription, a failed input hand-over, or a decode loop that ends
    in a non-success status. -/
theorem claim_C3_decode_failure_null_image_zero_frametime
    (gpvt : Gif.Private) (hg1 : gpvt.gif.frame_decode 0 = none)
    (gpvt2 : Gif.Private)
    (hg2 : gpvt2.gif.frame_decode
      ((gpvt2.current_frame + 1) % gpvt2.gif.info.frame_count) = none)
    (ppvt : Png.Private) (hp : ppvt.lib.read_image_ok = false)
    (env : Jxl.DecoderEnv) (info0 : Jxl.BasicInfo) (jpvt : Jxl.Private)
    (hj : env.subscribe_ok = false ∨ env.set_input_ok = false ∨
      (Jxl.loop
        ⟨{ jpvt with nb_frames := 0, cur_frame := 0, frames := List.replicate Jxl.BACKEND_NB_ALLOC_FRAMES ⟨none, 0⟩ },
          info0⟩ env.events).2 = false) :
    (Gif.first_frame gpvt).2 = (none, 0) ∧
    (Gif.next_frame gpvt2).2 = (none, 0) ∧
    (Png.load_image ppvt).2 = (none, 0) ∧
    (Jxl.first_frame env info0 jpvt).2 = LoadOutcome.ret none 0 := by
  refine ⟨?_, ?_, ?_, ?_⟩
  · simp [Gif.first_frame, hg1]
  · simp [Gif.next_frame, hg2]
  · simp [Png.load_image, hp]
  · unfold Jxl.first_frame
    rcases hj with h | h | h
    · simp [h]
    · simp [h]
    · cases hs : env.subscribe_ok <;> cases hi : env.set_input_ok <;> simp
      rw [show (Jxl.loop _ env.events) = ((Jxl.loop _ env.events).1, (Jxl.loop _ env.events).2) from rfl, h]

/-- Witness for claim C3 at concrete inputs: a GIF decoder that fails on
    every frame, a PNG stream whose row decode longjmps, and a JXL
    decoder that reports an immediate error. -/
theorem claim_C3_decode_failure_null_image_zero_frametime_witness :
    (Gif.first_frame ⟨0, ⟨⟨3, 2, 2⟩, fun _ => 10, fun _ => none⟩, none⟩).2 = (none, 0) ∧
    (Gif.next_frame ⟨0, ⟨⟨3, 2, 2⟩, fun _ => 10, fun _ => none⟩, none⟩).2 = (none, 0) ∧
    (Png.load_image ⟨false, some [], 0, true, ⟨true, 2, 1, 8, false, []⟩⟩).2 = (none, 0) ∧
    (Jxl.first_frame ⟨true, true, [Jxl.Event.error]⟩ ⟨0, 0, false, ⟨0, 0⟩⟩
      ⟨[], false, 0, 0, false, [], 0, 0⟩).2 = LoadOutcome.ret none 0 :=
  claim_C3_decode_failure_null_image_zero_frametime
    ⟨0, ⟨⟨3, 2, 2⟩, fun _ => 10, fun _ => none⟩, none⟩ rfl
    ⟨0, ⟨⟨3, 2, 2⟩, fun _ => 10, fun _ => none⟩, none⟩ rfl
    ⟨false, some [], 0, true, ⟨true, 2, 1, 8, false, []⟩⟩ rfl
    ⟨true, true, [Jxl.Event.error]⟩ ⟨0, 0, false, ⟨0, 0⟩⟩
    ⟨[], false, 0, 0, false, [], 0, 0⟩ (Or.inr (Or.inr (by decide)))

/-- The JPEG-XL decoder behaviour refuting claim C4: basic info (a 1x1
    static image) is reported, then the decoder fails with JXL_DEC_ERROR
    before any frame is produced. -/
def c4FailEnv : Jxl.DecoderEnv :=
  ⟨true, true, [Jxl.Event.basicInfo true ⟨1, 1, false, ⟨0, 0⟩⟩, Jxl.Event.error]⟩

/-- The private state of a JPEG-XL source just accepted from memory. -/
def c4Pvt : Jxl.Private := ⟨[255, 10], false, 0, 0, false, [], 0, 0⟩

/-- Claim C4 evaluation at the failing input: a JPEG-XL source is
    accepted from memory, its first-frame decode soft-fails (null image,
    zero frametime, nb_frames stays 0), and then the very next
    load_next_frame call does not return a null image: next_frame
    unconditionally advances cur_frame to 1 and push_frame memcpys
    width*height*4 bytes out of frames[1].data, a frame buffer that was
    never allocated (NULL in the calloc-ed slot) - undefined behaviour
    instead of the null-image soft failure the claim requires. -/
theorem claim_C4_code_bug_eval :
    (Jxl.open_memory Jxl.Signature.codestream [255, 10]).2 = some c4Pvt ∧
    (Jxl.first_frame c4FailEnv ⟨0, 0, false, ⟨0, 0⟩⟩ c4Pvt).2 = LoadOutcome.ret none 0 ∧
    ((Jxl.first_frame c4FailEnv ⟨0, 0, false, ⟨0, 0⟩⟩ c4Pvt).1).nb_frames = 0 ∧
    ((Jxl.first_frame c4FailEnv ⟨0, 0, false, ⟨0, 0⟩⟩ c4Pvt).1).cur_frame = 0 ∧
    (Jxl.next_frame (Jxl.first_frame c4FailEnv ⟨0, 0, false, ⟨0, 0⟩⟩ c4Pvt).1).1.cur_frame = 1 ∧
    (Jxl.next_frame (Jxl.first_frame c4FailEnv ⟨0, 0, false, ⟨0, 0⟩⟩ c4Pvt).1).2 = LoadOutcome.ub := by
  refine ⟨rfl, ?_, ?_, ?_, ?_, ?_⟩ <;> decide

/-- Loading exactly frame i of a GIF source: the reference behaviour
    that the wraparound claim compares the call sequence against. -/
def Gif.load_at (pvt : Gif.Private) (i : Nat) : Gif.Private × (Option ImvImage × Int) :=
  let pvt := { pvt with current_frame := i }
  match pvt.gif.frame_decode i with
  | none => (pvt, (none, 0))
  | some d => (pvt, Gif.push_current_image pvt d)

/-- The call sequence of the frame-iteration protocol on a GIF source:
    sequenceCall pvt 0 is load_first_frame, sequenceCall pvt k for k > 0
    is the k-th load_next_frame after it. -/
def Gif.sequenceCall (pvt : Gif.Private) : Nat → Gif.Private × (Option ImvImage × Int)
  | 0 => Gif.first_frame pvt
  | k + 1 => Gif.next_frame (Gif.sequenceCall pvt k).1

theorem Gif.load_at_fst (pvt : Gif.Private) (i : Nat) :
    (Gif.load_at pvt i).1 = { pvt with current_frame := i } := by
  unfold Gif.load_at
  cases h : pvt.gif.frame_decode i <;> simp [h]

theorem Gif.load_at_set_index (pvt : Gif.Private) (j i : Nat) :
    Gif.load_at { pvt with current_frame := j } i = Gif.load_at pvt i := rfl

theorem Gif.first_frame_eq_load_at (pvt : Gif.Private) :
    Gif.first_frame pvt = Gif.load_at pvt 0 := rfl

theorem Gif.next_frame_eq_load_at (pvt : Gif.Private) :
    Gif.next_frame pvt
      = Gif.load_at pvt ((pvt.current_frame + 1) % pvt.gif.info.frame_count) := rfl

/-- Claim C5: on an N-frame GIF, the k-th call of the iteration protocol
    (load_first_frame, then load_next_frame repeatedly) loads exactly
    frame k mod N - the index wraps modulo the frame count discovered at
    open time - and after exactly N load_next_frame calls the whole call
    result, pixel buffer included, is identical to the one of
    load_first_frame. -/
theorem claim_C5_gif_wraparound (pvt : Gif.Private) (N : Nat) (hN : 0 < N)
    (hc : pvt.gif.info.frame_count = N) :
    (∀ k, Gif.sequenceCall pvt k = Gif.load_at pvt (k % N)) ∧
    Gif.sequenceCall pvt N = Gif.sequenceCall pvt 0 := by
  have key : ∀ k, Gif.sequenceCall pvt k = Gif.load_at pvt (k % N) := by
    intro k
    induction k with
    | zero =>
        rw [show Gif.sequenceCall pvt 0 = Gif.first_frame pvt from rfl,
          Gif.first_frame_eq_load_at, Nat.zero_mod]
    | succ k ih =>
        rw [show Gif.sequenceCall pvt (k + 1)
            = Gif.next_frame (Gif.sequenceCall pvt k).1 from rfl, ih,
          Gif.load_at_fst, Gif.next_frame_eq_load_at]
        simp only
        rw [hc, Nat.mod_add_mod, Gif.load_at_set_index]
  refine ⟨key, ?_⟩
  rw [key N, key 0, Nat.mod_self, Nat.zero_mod]

/-- Witness for claim C5: a 3-frame GIF; after 3 load_next_frame calls
    the call result is identical to that of load_first_frame. -/
theorem claim_C5_gif_wraparound_witness :
    Gif.sequenceCall sampleGifPrivate 3 = Gif.sequenceCall sampleGifPrivate 0 :=
  (claim_C5_gif_wraparound sampleGifPrivate 3 (by decide) rfl).2

/-- Classification of one decoder status in first_frame's loop: none
    when the loop keeps running, some true when it stops successfully,
    some false when it stops in failure.  This depends only on the
    status (and the library-call successes bundled with it), never on
    the adapter state. -/
def Jxl.event_stops : Jxl.Event → Option Bool
  | .success => some true
  | .error => some false
  | .needMoreInput => some false
  | .basicInfo getOk _ => if getOk then none else some false
  | .needImageOutBuffer sizeOk _ setOk _ => if sizeOk && setOk then none else some false
  | .fullImage => none
  | .unknown => some false

/-- Contribution of one decoder status to nb_frames: only a full-image
    status increments the frame count. -/
def Jxl.full_inc : Jxl.Event → Nat
  | .fullImage => 1
  | _ => 0

/-- Number of full images the decoder reports before the loop stops. -/
def Jxl.full_count : List Jxl.Event → Nat
  | [] => 0
  | ev :: rest =>
      match Jxl.event_stops ev with
      | some _ => 0
      | none => Jxl.full_inc ev + Jxl.full_count rest

theorem Jxl.process_characterize (st : Jxl.Loop) (ev : Jxl.Event) :
    (Jxl.process st ev).2 = Jxl.event_stops ev ∧
    ((Jxl.process st ev).1).pvt.nb_frames = st.pvt.nb_frames + Jxl.full_inc ev := by
  cases ev with
  | success => simp [Jxl.process, Jxl.event_stops, Jxl.full_inc]
  | error => simp [Jxl.process, Jxl.event_stops, Jxl.full_inc]
  | needMoreInput => simp [Jxl.process, Jxl.event_stops, Jxl.full_inc]
  | basicInfo getOk info =>
      cases getOk <;> simp [Jxl.process, Jxl.event_stops, Jxl.full_inc]
  | needImageOutBuffer sizeOk bufSz setOk pixels =>
      cases sizeOk <;> cases setOk <;>
        simp [Jxl.process, Jxl.event_stops, Jxl.full_inc]
  | fullImage => simp [Jxl.process, Jxl.event_stops, Jxl.full_inc]
  | unknown => simp [Jxl.process, Jxl.event_stops, Jxl.full_inc]

theorem Jxl.event_stops_some_inc (ev : Jxl.Event) (b : Bool)
    (h : Jxl.event_stops ev = some b) : Jxl.full_inc ev = 0 := by
  cases ev <;> simp [Jxl.full_inc]
  case fullImage => simp [Jxl.event_stops] at h

theorem Jxl.loop_nb_frames (evs : List Jxl.Event) :
    ∀ st : Jxl.Loop,
      ((Jxl.loop st evs).1).pvt.nb_frames = st.pvt.nb_frames + Jxl.full_count evs := by
  induction evs with
  | nil => intro st; simp [Jxl.loop, Jxl.full_count]
  | cons ev rest ih =>
      intro st
      have h2 := (Jxl.process_characterize st ev).1
      have h1 := (Jxl.process_characterize st ev).2
      unfold Jxl.loop Jxl.full_count
      cases hp : Jxl.process st ev with
      | mk st' r =>
        rw [hp] at h1 h2
        simp only at h1 h2
        cases r with
        | none =>
            rw [← h2]
            simp only [ih st', h1]
            omega
        | some ok =>
            rw [← h2]
            simp only [h1, Jxl.event_stops_some_inc ev ok h2.symm]

/-- Claim C6: load_first_frame alone drives the native JPEG-XL decoder
    and populates the entire pre-decoded frame list - after it, the
    stored frame count equals the number of full images the decoder
    reported before the loop stopped.  Every load_next_frame call never
    touches the native decoder: it is a pure function of the stored
    state that changes nothing but the current index, and its result is
    read from the pre-decoded list; the index resets to 0 exactly when
    it equals nb_frames - 1 (an equality check over C ints, not a modulo
    operation), and is incremented by one otherwise. -/
theorem claim_C6_jxl_eager_decode_then_index_advance
    (env : Jxl.DecoderEnv) (info0 : Jxl.BasicInfo) (pvt : Jxl.Private)
    (hs : env.subscribe_ok = true) (hi : env.set_input_ok = true)
    (pvt' : Jxl.Private) :
    ((Jxl.first_frame env info0 pvt).1).nb_frames = Jxl.full_count env.events ∧
    (Jxl.next_frame pvt').1 = { pvt' with cur_frame := if (pvt'.cur_frame : Int) = (pvt'.nb_frames : Int) - 1 then 0 else pvt'.cur_frame + 1 } ∧
    (Jxl.next_frame pvt').2 = Jxl.push_frame ((Jxl.next_frame pvt').1) := by
  refine ⟨?_, rfl, rfl⟩
  unfold Jxl.first_frame
  rw [hs, hi]
  simp only [Bool.not_true, Bool.false_eq_true, if_false]
  cases hl : Jxl.loop ⟨{ pvt with nb_frames := 0, cur_frame := 0, frames := List.replicate Jxl.BACKEND_NB_ALLOC_FRAMES ⟨none, 0⟩ }, info0⟩ env.events with
  | mk st b =>
      have hnb := Jxl.loop_nb_frames env.events
        ⟨{ pvt with nb_frames := 0, cur_frame := 0, frames := List.replicate Jxl.BACKEND_NB_ALLOC_FRAMES ⟨none, 0⟩ }, info0⟩
      rw [hl] at hnb
      simp only at hnb
      cases b <;> simpa using hnb

/-- Witness for claim C6: a decoder trace producing exactly two frames;
    the stored frame count is 2, and next_frame on a concrete state is
    the stated pure index advance. -/
theorem claim_C6_jxl_eager_decode_then_index_advance_witness :
    ((Jxl.first_frame
        ⟨true, true,
          [Jxl.Event.basicInfo true ⟨1, 1, true, ⟨10, 1⟩⟩,
           Jxl.Event.needImageOutBuffer true 4 true [1, 2, 3, 4],
           Jxl.Event.fullImage,
           Jxl.Event.needImageOutBuffer true 4 true [5, 6, 7, 8],
           Jxl.Event.fullImage,
           Jxl.Event.success]⟩
        ⟨0, 0, false, ⟨0, 0⟩⟩ c4Pvt).1).nb_frames
      = Jxl.full_count
          [Jxl.Event.basicInfo true ⟨1, 1, true, ⟨10, 1⟩⟩,
           Jxl.Event.needImageOutBuffer true 4 true [1, 2, 3, 4],
           Jxl.Event.fullImage,
           Jxl.Event.needImageOutBuffer true 4 true [5, 6, 7, 8],
           Jxl.Event.fullImage,
           Jxl.Event.success] ∧
    (Jxl.next_frame c4Pvt).1 = { c4Pvt with cur_frame := if ((c4Pvt.cur_frame : Int) = (c4Pvt.nb_frames : Int) - 1) then 0 else c4Pvt.cur_frame + 1 } ∧
    (Jxl.next_frame c4Pvt).2 = Jxl.push_frame ((Jxl.next_frame c4Pvt).1) :=
  claim_C6_jxl_eager_decode_then_index_advance
    ⟨true, true,
      [Jxl.Event.basicInfo true ⟨1, 1, true, ⟨10, 1⟩⟩,
       Jxl.Event.needImageOutBuffer true 4 true [1, 2, 3, 4],
       Jxl.Event.fullImage,
       Jxl.Event.needImageOutBuffer true 4 true [5, 6, 7, 8],
       Jxl.Event.fullImage,
       Jxl.Event.success]⟩
    ⟨0, 0, false, ⟨0, 0⟩⟩ c4Pvt rfl rfl c4Pvt

theorem list_getD_set_self {α : Type} (l : List α) (i : Nat) (a d : α)
    (h : i < l.length) : (l.set i a).getD i d = a := by
  simp [List.getD_eq_getElem?_getD, List.getElem?_set_self', h]

/-- Handling a need-image-out-buffer status writes slot nb_frames of the
    (possibly grown) frame list with the decoder's buffer and the
    frametime the C code computes there. -/
theorem Jxl.process_buffer_slot (st : Jxl.Loop) (bufSz : Nat) (setOk : Bool)
    (pixels : List Nat)
    (hcap : st.pvt.nb_frames ≤ st.pvt.frames.length) :
    (((Jxl.process st (Jxl.Event.needImageOutBuffer true bufSz setOk pixels)).1).pvt.frames.getD st.pvt.nb_frames ⟨none, 0⟩)
      = ⟨some pixels,
          if st.pvt.is_animation then
            if st.info.animation.tps_numerator ≠ 0 ∧ st.info.animation.tps_denominator ≠ 0 then
              ((st.info.animation.tps_numerator / st.info.animation.tps_denominator : Nat) : Int)
            else Jxl.BACKEND_DEFAULT_FRAMETIME
          else 0⟩ := by
  by_cases hg : st.pvt.nb_frames = st.pvt.frames.length
  · simp only [Jxl.process, hg, if_pos, if_true]
    rw [list_getD_set_self]
    simp [Jxl.BACKEND_NB_ALLOC_FRAMES, hg]
  · simp only [Jxl.process, hg, if_false, if_true]
    rw [list_getD_set_self]
    omega

/-- Claim C9: the duration recorded for every pre-decoded JPEG-XL frame
    is exactly 0 when the input is not an animation; when it is an
    animation it is computed from the animation tick rate (numerator
    divided by denominator, in C integer division), falling back to the
    fixed default of 100 ms exactly when the tick-rate numerator or
    denominator is zero. -/
theorem claim_C9_jxl_frame_duration (st : Jxl.Loop) (bufSz : Nat)
    (setOk : Bool) (pixels : List Nat)
    (hcap : st.pvt.nb_frames ≤ st.pvt.frames.length) :
    (st.pvt.is_animation = false →
      (((Jxl.process st (Jxl.Event.needImageOutBuffer true bufSz setOk pixels)).1).pvt.frames.getD st.pvt.nb_frames ⟨none, 0⟩).frametime = 0) ∧
    (st.pvt.is_animation = true → st.info.animation.tps_numerator ≠ 0 →
      st.info.animation.tps_denominator ≠ 0 →
      (((Jxl.process st (Jxl.Event.needImageOutBuffer true bufSz setOk pixels)).1).pvt.frames.getD st.pvt.nb_frames ⟨none, 0⟩).frametime
        = ((st.info.animation.tps_numerator / st.info.animation.tps_denominator : Nat) : Int)) ∧
    (st.pvt.is_animation = true →
      (st.info.animation.tps_numerator = 0 ∨ st.info.animation.tps_denominator = 0) →
      (((Jxl.process st (Jxl.Event.needImageOutBuffer true bufSz setOk pixels)).1).pvt.frames.getD st.pvt.nb_frames ⟨none, 0⟩).frametime = 100) := by
  rw [Jxl.process_buffer_slot st bufSz setOk pixels hcap]
  refine ⟨?_, ?_, ?_⟩
  · intro h; simp [h]
  · intro h hn hd; simp [h, hn, hd]
  · intro h hnd
    have : ¬ (st.info.animation.tps_numerator ≠ 0 ∧ st.info.animation.tps_denominator ≠ 0) := by
      rcases hnd with h0 | h0 <;> simp [h0]
    simp [h, this, Jxl.BACKEND_DEFAULT_FRAMETIME]

/-- Witness for claim C9 on an animated state with a degenerate tick
    rate: the recorded duration falls back to 100 ms. -/
theorem claim_C9_jxl_frame_duration_witness :
    ((⟨⟨[], false, 1, 1, true, [⟨none, 0⟩], 0, 0⟩, ⟨1, 1, true, ⟨0, 7⟩⟩⟩ : Jxl.Loop).pvt.is_animation = false →
      ((Jxl.process ⟨⟨[], false, 1, 1, true, [⟨none, 0⟩], 0, 0⟩, ⟨1, 1, true, ⟨0, 7⟩⟩⟩ (Jxl.Event.needImageOutBuffer true 4 true [9, 9, 9, 9])).1.pvt.frames.getD 0 ⟨none, 0⟩).frametime = 0) ∧
    ((⟨⟨[], false, 1, 1, true, [⟨none, 0⟩], 0, 0⟩, ⟨1, 1, true, ⟨0, 7⟩⟩⟩ : Jxl.Loop).pvt.is_animation = true → (0 : Nat) ≠ 0 → (7 : Nat) ≠ 0 →
      ((Jxl.process ⟨⟨[], false, 1, 1, true, [⟨none, 0⟩], 0, 0⟩, ⟨1, 1, true, ⟨0, 7⟩⟩⟩ (Jxl.Event.needImageOutBuffer true 4 true [9, 9, 9, 9])).1.pvt.frames.getD 0 ⟨none, 0⟩).frametime = ((0 / 7 : Nat) : Int)) ∧
    ((⟨⟨[], false, 1, 1, true, [⟨none, 0⟩], 0, 0⟩, ⟨1, 1, true, ⟨0, 7⟩⟩⟩ : Jxl.Loop).pvt.is_animation = true → ((0 : Nat) = 0 ∨ (7 : Nat) = 0) →
      ((Jxl.process ⟨⟨[], false, 1, 1, true, [⟨none, 0⟩], 0, 0⟩, ⟨1, 1, true, ⟨0, 7⟩⟩⟩ (Jxl.Event.needImageOutBuffer true 4 true [9, 9, 9, 9])).1.pvt.frames.getD 0 ⟨none, 0⟩).frametime = 100) := by
  have h := claim_C9_jxl_frame_duration
    ⟨⟨[], false, 1, 1, true, [⟨none, 0⟩], 0, 0⟩, ⟨1, 1, true, ⟨0, 7⟩⟩⟩ 4 true
    [9, 9, 9, 9] (by decide)
  exact h

/-- Claim C7: every Image handed to the caller by any backend wraps a
    bitmap whose byte buffer has length exactly 4*width*height,
    constructed in full at creation.  The hypotheses are the buffer-size
    contracts of the native decoders: the GIF frame buffer was created
    by this backend's own bitmap_create callback (calloc(width*height, 4)),
    libpng fills all height rows of rowbytes bytes with rowbytes = 4*width
    after the configured normalizing transforms, and the JPEG-XL
    push succeeded (its source slot held at least width*height*4 bytes). -/
theorem claim_C7_bitmap_buffer_length
    (gpvt : Gif.Private) (d : List Nat)
    (hd : d.length = 4 * gpvt.gif.info.width * gpvt.gif.info.height)
    (ppvt : Png.Private)
    (hp1 : ppvt.lib.rowbytes = 4 * ppvt.lib.width)
    (hp2 : ppvt.lib.pixels.length = ppvt.lib.rowbytes * ppvt.lib.height)
    (hp3 : ppvt.lib.read_image_ok = true)
    (jpvt : Jxl.Private) (img : ImvImage) (ft : Int)
    (hj : Jxl.push_frame jpvt = LoadOutcome.ret (some img) ft) :
    (((Gif.push_current_image gpvt d).1).map fun im => im.bitmap.data.length)
      = some (4 * gpvt.gif.info.width * gpvt.gif.info.height) ∧
    (((Png.load_image ppvt).2.1).map fun im => im.bitmap.data.length)
      = some (4 * ppvt.lib.width * ppvt.lib.height) ∧
    img.bitmap.data.length = 4 * jpvt.width * jpvt.height := by
  refine ⟨?_, ?_, ?_⟩
  · simp [Gif.push_current_image, imv_image_create_from_bitmap, hd]
  · simp only [Png.load_image, hp3, Bool.not_true, Bool.false_eq_true, if_false]
    simp [imv_image_create_from_bitmap, List.length_take, hp2, hp1, Nat.mul_assoc]
  · unfold Jxl.push_frame at hj
    simp only at hj
    split at hj
    · simp at hj
    · split at hj
      · rename_i hle
        simp only [LoadOutcome.ret.injEq, Option.some.injEq] at hj
        rw [← hj.1]
        simp only [imv_image_create_from_bitmap, List.length_take]
        rw [Nat.min_eq_left hle]
        simp only [Jxl.BACKEND_NB_CHANNELS]
        ring
      · simp at hj

/-- Witness for claim C7 at concrete inputs. -/
theorem claim_C7_bitmap_buffer_length_witness :
    (((Gif.push_current_image sampleGifPrivate (List.replicate 16 5)).1).map fun im => im.bitmap.data.length)
      = some (4 * sampleGifPrivate.gif.info.width * sampleGifPrivate.gif.info.height) ∧
    (((Png.load_image samplePngPrivate).2.1).map fun im => im.bitmap.data.length)
      = some (4 * samplePngPrivate.lib.width * samplePngPrivate.lib.height) ∧
    (⟨⟨1, 1, PixelFormat.abgr, [9, 9, 9, 9]⟩⟩ : ImvImage).bitmap.data.length = 4 * 1 * 1 :=
  claim_C7_bitmap_buffer_length sampleGifPrivate (List.replicate 16 5) (by decide)
    samplePngPrivate rfl (by decide) rfl
    ⟨[], false, 1, 1, false, [⟨some [9, 9, 9, 9], 0⟩], 0, 1⟩
    ⟨⟨1, 1, PixelFormat.abgr, [9, 9, 9, 9]⟩⟩ 0 (by decide)

theorem Jxl.process_preserves_input (st : Jxl.Loop) (ev : Jxl.Event) :
    ((Jxl.process st ev).1).pvt.data = st.pvt.data ∧
    ((Jxl.process st ev).1).pvt.owns_data = st.pvt.owns_data := by
  cases ev with
  | basicInfo getOk info => cases getOk <;> simp [Jxl.process]
  | needImageOutBuffer sizeOk bufSz setOk pixels =>
      cases sizeOk <;> cases setOk <;> simp [Jxl.process]
  | _ => simp [Jxl.process]

theorem Jxl.loop_preserves_input (evs : List Jxl.Event) :
    ∀ st : Jxl.Loop,
      ((Jxl.loop st evs).1).pvt.data = st.pvt.data ∧
      ((Jxl.loop st evs).1).pvt.owns_data = st.pvt.owns_data := by
  induction evs with
  | nil => intro st; simp [Jxl.loop]
  | cons ev rest ih =>
      intro st
      have hp := Jxl.process_preserves_input st ev
      unfold Jxl.loop
      cases hpe : Jxl.process st ev with
      | mk st' r =>
          rw [hpe] at hp
          simp only at hp
          cases r with
          | none =>
              have := ih st'
              exact ⟨this.1.trans hp.1, this.2.trans hp.2⟩
          | some ok => exact hp

theorem Jxl.first_frame_preserves_input (env : Jxl.DecoderEnv)
    (info0 : Jxl.BasicInfo) (pvt : Jxl.Private) :
    ((Jxl.first_frame env info0 pvt).1).data = pvt.data ∧
    ((Jxl.first_frame env info0 pvt).1).owns_data = pvt.owns_data := by
  unfold Jxl.first_frame
  cases hs : env.subscribe_ok <;> cases hi : env.set_input_ok <;> simp
  all_goals {
    have h := Jxl.loop_preserves_input env.events
      ⟨{ pvt with nb_frames := 0, cur_frame := 0, frames := List.replicate Jxl.BACKEND_NB_ALLOC_FRAMES ⟨none, 0⟩ }, info0⟩
    cases hl : Jxl.loop ⟨{ pvt with nb_frames := 0, cur_frame := 0, frames := List.replicate Jxl.BACKEND_NB_ALLOC_FRAMES ⟨none, 0⟩ }, info0⟩ env.events with
    | mk st b =>
        rw [hl] at h
        simp only at h
        cases b <;> simpa using h
  }

/-- Claim C8: each Source's input-ownership discipline is fixed at
    construction and never changes: JPEG-XL memory mode borrows
    (owns_data = false), JPEG-XL path mode owns its mapping
    (owns_data = true), GIF path mode stores the mapping and GIF memory
    mode stores nothing (the caller's buffer is never kept), PNG memory
    mode keeps a borrowed view and PNG path mode an open file.  The load
    operations never change the stored input or the ownership flag.
    release performs the teardown matching the discipline: JPEG-XL
    unmaps exactly when it owns the mapping, GIF unmaps exactly when a
    mapping was stored (memory mode passes NULL to munmap, unmapping
    nothing), PNG closes the file exactly when one is open and never
    unmaps; no backend ever frees the input buffer. -/
theorem claim_C8_ownership_discipline
    (sig : Jxl.Signature) (jdata : List Nat) (jpenv : Jxl.PathEnv)
    (env : Jxl.DecoderEnv) (info0 : Jxl.BasicInfo) (jpvt jpvt2 : Jxl.Private)
    (genv : Gif.OpenEnv) (gpenv : Gif.PathEnv) (gpvt gpvt2 gpvt3 : Gif.Private)
    (pdata : List Nat) (poenv poenv2 : Png.OpenEnv) (ppenv : Png.PathEnv)
    (ppvt ppvt2 : Png.Private) :
    ((Jxl.open_memory sig jdata).2.elim True fun p => p.owns_data = false) ∧
    ((Jxl.open_path jpenv).2.elim True fun p => p.owns_data = true) ∧
    ((Gif.open_memory genv).2.elim True fun p => p.data = none) ∧
    ((Gif.open_path gpenv).2.elim True fun p => p.data = some gpenv.mapped) ∧
    ((Png.open_memory pdata poenv).2.elim True fun p => p.data = some (pdata.drop Png.SIG_SIZE) ∧ p.file = false) ∧
    ((Png.open_path ppenv poenv2).2.elim True fun p => p.data = none ∧ p.file = true) ∧
    ((Jxl.first_frame env info0 jpvt).1.owns_data = jpvt.owns_data ∧
     (Jxl.first_frame env info0 jpvt).1.data = jpvt.data) ∧
    ((Jxl.next_frame jpvt2).1.owns_data = jpvt2.owns_data ∧
     (Jxl.next_frame jpvt2).1.data = jpvt2.data) ∧
    ((Gif.first_frame gpvt).1.data = gpvt.data ∧
     (Gif.next_frame gpvt2).1.data = gpvt2.data) ∧
    ((Png.load_image ppvt).1.data = ppvt.data) ∧
    (TeardownAction.unmapInput ∈ Jxl.free_private (some jpvt) ↔ jpvt.owns_data = true) ∧
    (TeardownAction.freeInput ∉ Jxl.free_private (some jpvt)) ∧
    (TeardownAction.unmapInput ∈ Gif.free_private (some gpvt3) ↔ gpvt3.data.isSome = true) ∧
    (TeardownAction.freeInput ∉ Gif.free_private (some gpvt3)) ∧
    (TeardownAction.unmapInput ∉ Png.free_private (some ppvt2)) ∧
    (TeardownAction.freeInput ∉ Png.free_private (some ppvt2)) ∧
    (TeardownAction.closeFile ∈ Png.free_private (some ppvt2) ↔ ppvt2.file = true) := by
  refine ⟨?_, ?_, ?_, ?_, ?_, ?_, ?_, ?_, ?_, ?_, ?_, ?_, ?_, ?_, ?_, ?_, ?_⟩
  · unfold Jxl.open_memory
    cases sig <;> simp
  · unfold Jxl.open_path
    cases ho : jpenv.open_ok <;> simp
    cases hl : jpenv.lseek_len <;> simp
    cases hm : jpenv.mmap_ok <;> simp
    cases hsg : jpenv.sig <;> simp
  · unfold Gif.open_memory
    cases hc : genv.create_ok <;> cases hs : genv.scan_ok <;> simp
  · unfold Gif.open_path
    cases ho : gpenv.open_ok <;> simp
    cases hl : gpenv.lseek_len <;> simp
    cases hm : gpenv.mmap_ok <;> simp
    cases hc : gpenv.create_ok <;> simp
    cases hs : gpenv.scan_ok <;> simp
  · unfold Png.open_memory
    cases hs : Png.png_sig_mismatch pdata <;> simp
    cases hc : poenv.create_ok <;> simp
    cases hi : poenv.info_ok <;> simp
    cases hr : poenv.lib.read_info_ok <;> simp
  · unfold Png.open_path
    cases ho : ppenv.fopen_ok <;> simp
    cases hsr : ppenv.sig_read <;> simp
    cases hs : Png.png_sig_mismatch _ <;> simp
    cases hc : poenv2.create_ok <;> simp
    cases hi : poenv2.info_ok <;> simp
    cases hr : poenv2.lib.read_info_ok <;> simp
  · exact ⟨(Jxl.first_frame_preserves_input env info0 jpvt).2,
      (Jxl.first_frame_preserves_input env info0 jpvt).1⟩
  · simp [Jxl.next_frame]
  · constructor
    · unfold Gif.first_frame
      cases h : gpvt.gif.frame_decode 0 <;> simp [h]
    · unfold Gif.next_frame
      cases h : gpvt2.gif.frame_decode ((gpvt2.current_frame + 1) % gpvt2.gif.info.frame_count) <;> simp [h]
  · unfold Png.load_image
    cases h : ppvt.lib.read_image_ok <;> simp [Png.read_end]
  · unfold Jxl.free_private
    cases h : jpvt.owns_data <;>
      simp [List.mem_append, List.mem_filterMap, h]
  · unfold Jxl.free_private
    cases h : jpvt.owns_data <;>
      simp [List.mem_append, List.mem_filterMap, h]
  · unfold Gif.free_private
    cases h : gpvt3.data <;> simp [h]
  · unfold Gif.free_private
    cases h : gpvt3.data <;> simp [h]
  · unfold Png.free_private Png.read_end
    cases hg : ppvt2.png <;> cases hf : ppvt2.file <;> simp [hg, hf]
  · unfold Png.free_private Png.read_end
    cases hg : ppvt2.png <;> cases hf : ppvt2.file <;> simp [hg, hf]
  · unfold Png.free_private Png.read_end
    cases hg : ppvt2.png <;> cases hf : ppvt2.file <;> simp [hg, hf]
